import Mathlib

set_option linter.unusedVariables false

/-!
Verification of the Community Energy Calculator engine
(`streamlit_app/calculations.py`), shallowly embedded over `ℚ`.

All monetary / power / energy quantities are modelled as exact rationals;
Python dictionaries become structures, optional dictionary keys become
`Option` fields (Python `.get` with a default becomes `Option.getD`).
-/

namespace PowerInsight

/-! ## Constants (`INFRASTRUCTURE_COSTS`, `DC_RATE_STRUCTURE`, `TIME_PARAMS`) -/

def transmission_cost_per_mw : ℚ := 350000
def distribution_cost_per_mw : ℚ := 150000
def capacity_cost_per_mw_year : ℚ := 150000
def annual_baseline_upgrade_pct : ℚ := 0.015
def coincident_peak_charge_per_mw_month : ℚ := 5430
def non_coincident_peak_charge_per_mw_month : ℚ := 3620
def energy_margin_per_mwh : ℚ := 4.88
def ercot_4cp_transmission_rate : ℚ := 5.50
def general_inflation : ℚ := 0.025
def base_year : ℕ := 2025

/-! ## Data model -/

/-- A utility profile.  Required dictionary keys are plain fields; keys read
with `.get` in the source (`market_type`, `has_capacity_market`,
`capacity_price_2024`, `capacity_cost_pass_through`) are `Option`/`Bool`
fields, `none`/`false` meaning the key is absent. -/
structure Utility where
  residential_customers : ℚ
  commercial_customers : ℚ
  industrial_customers : ℚ
  avg_monthly_bill : ℚ
  pre_dc_system_energy_gwh : ℚ
  residential_energy_share : ℚ
  system_peak_mw : ℚ
  base_residential_allocation : ℚ
  market_type : Option String
  has_capacity_market : Bool
  capacity_price_2024 : Option ℚ
  capacity_cost_pass_through : Option ℚ

/-- A data-center profile; keys read with `.get` carry their defaults via
`Option.getD` at use sites, exactly as in the source. -/
structure DataCenter where
  capacity_mw : ℚ
  firm_load_factor : Option ℚ
  firm_peak_coincidence : Option ℚ
  flex_load_factor : Option ℚ
  flex_peak_coincidence : Option ℚ
  onsite_generation_mw : Option ℚ

/-- `DEFAULT_UTILITY` from the source. -/
def DEFAULT_UTILITY : Utility :=
  { residential_customers := 560000
    commercial_customers := 85000
    industrial_customers := 5000
    avg_monthly_bill := 130
    pre_dc_system_energy_gwh := 20000
    residential_energy_share := 0.35
    system_peak_mw := 4000
    base_residential_allocation := 0.40
    market_type := none
    has_capacity_market := false
    capacity_price_2024 := none
    capacity_cost_pass_through := none }

/-- `DEFAULT_DATA_CENTER` from the source. -/
def DEFAULT_DATA_CENTER : DataCenter :=
  { capacity_mw := 1000
    firm_load_factor := some 0.80
    firm_peak_coincidence := some 1.0
    flex_load_factor := some 0.95
    flex_peak_coincidence := some 0.75
    onsite_generation_mw := some 200 }

/-! ## Residential allocation model (`calculate_residential_allocation`) -/

structure AllocationResult where
  allocation : ℚ
  volumetric_share : ℚ
  demand_share : ℚ
  customer_share : ℚ

/-- The locals of `calculate_residential_allocation` up to (and excluding)
the final clamp: `adjusted_allocation` in the source. -/
def residential_allocation_unclamped (utility : Utility)
    (dc_capacity_mw dc_load_factor dc_peak_coincidence : ℚ)
    (years_online : ℕ) : ℚ :=
  let pre_dc_system_energy_mwh := utility.pre_dc_system_energy_gwh * 1000
  let residential_energy_mwh := pre_dc_system_energy_mwh * utility.residential_energy_share
  let dc_annual_energy_mwh := dc_capacity_mw * dc_load_factor * 8760
  let phase_in_factor := min 1 ((years_online : ℚ) / 3)
  let post_dc_system_energy_mwh := pre_dc_system_energy_mwh + dc_annual_energy_mwh * phase_in_factor
  let residential_volumetric_share := residential_energy_mwh / post_dc_system_energy_mwh
  let pre_dc_peak_mw := utility.system_peak_mw
  let residential_peak_share : ℚ := 0.45
  let residential_peak_mw := pre_dc_peak_mw * residential_peak_share
  let dc_peak_contribution := dc_capacity_mw * dc_peak_coincidence * phase_in_factor
  let post_dc_peak_mw := pre_dc_peak_mw + dc_peak_contribution
  let residential_demand_share := residential_peak_mw / post_dc_peak_mw
  let total_customers := utility.residential_customers + utility.commercial_customers +
    utility.industrial_customers + 1
  let residential_customer_share := utility.residential_customers / total_customers
  let weighted_allocation := residential_volumetric_share * 0.40 +
    residential_demand_share * 0.40 + residential_customer_share * 0.20
  let regulatory_lag_factor := min 1 ((years_online : ℚ) / 5)
  let base_allocation := utility.base_residential_allocation
  base_allocation * (1 - regulatory_lag_factor) + weighted_allocation * regulatory_lag_factor

/-- `calculate_residential_allocation` from the source. -/
def calculate_residential_allocation (utility : Utility)
    (dc_capacity_mw dc_load_factor dc_peak_coincidence : ℚ)
    (years_online : ℕ) : AllocationResult :=
  let pre_dc_system_energy_mwh := utility.pre_dc_system_energy_gwh * 1000
  let residential_energy_mwh := pre_dc_system_energy_mwh * utility.residential_energy_share
  let dc_annual_energy_mwh := dc_capacity_mw * dc_load_factor * 8760
  let phase_in_factor := min 1 ((years_online : ℚ) / 3)
  let post_dc_system_energy_mwh := pre_dc_system_energy_mwh + dc_annual_energy_mwh * phase_in_factor
  let residential_volumetric_share := residential_energy_mwh / post_dc_system_energy_mwh
  let pre_dc_peak_mw := utility.system_peak_mw
  let residential_peak_share : ℚ := 0.45
  let residential_peak_mw := pre_dc_peak_mw * residential_peak_share
  let dc_peak_contribution := dc_capacity_mw * dc_peak_coincidence * phase_in_factor
  let post_dc_peak_mw := pre_dc_peak_mw + dc_peak_contribution
  let residential_demand_share := residential_peak_mw / post_dc_peak_mw
  let total_customers := utility.residential_customers + utility.commercial_customers +
    utility.industrial_customers + 1
  let residential_customer_share := utility.residential_customers / total_customers
  { allocation := max 0.15 (min 0.50
      (residential_allocation_unclamped utility dc_capacity_mw dc_load_factor
        dc_peak_coincidence years_online))
    volumetric_share := residential_volumetric_share
    demand_share := residential_demand_share
    customer_share := residential_customer_share }

/-! ## Revenue offset model (`calculate_dc_revenue_offset`) -/

structure RevenueOffset where
  cp_demand_revenue : ℚ
  ncp_demand_revenue : ℚ
  demand_revenue : ℚ
  energy_margin : ℚ
  per_year : ℚ

/-- `calculate_dc_revenue_offset` from the source; the Python default
`effective_capacity_mw=None` is the `none` case. -/
def calculate_dc_revenue_offset (dc_capacity_mw load_factor peak_coincidence : ℚ)
    (effective_capacity_mw : Option ℚ) (market_type : String) : RevenueOffset :=
  let effective := effective_capacity_mw.getD dc_capacity_mw
  let coincident_peak_mw := dc_capacity_mw * peak_coincidence
  let annual_cp_demand_revenue := coincident_peak_mw * coincident_peak_charge_per_mw_month * 12
  let ncp_peak_mw := effective
  let annual_ncp_demand_revenue := ncp_peak_mw * non_coincident_peak_charge_per_mw_month * 12
  let annual_demand_revenue := annual_cp_demand_revenue + annual_ncp_demand_revenue
  let annual_mwh := effective * load_factor * 8760
  let annual_energy_margin := annual_mwh * energy_margin_per_mwh
  { cp_demand_revenue := annual_cp_demand_revenue
    ncp_demand_revenue := annual_ncp_demand_revenue
    demand_revenue := annual_demand_revenue
    energy_margin := annual_energy_margin
    per_year := annual_demand_revenue + annual_energy_margin }

/-! ## Net impact model (`calculate_net_residential_impact`)

The source computes several named intermediate quantities; each becomes a
definition, re-assembled by `calculate_net_residential_impact` below.
The `utility` parameter is `Option Utility` (`None` default in Python). -/

def market_type_of (u : Option Utility) : String :=
  match u with
  | some ut =>
    match ut.market_type with
    | some m => m
    | none => "regulated"
  | none => "regulated"

def has_capacity_market_of (u : Option Utility) : Bool :=
  match u with
  | some ut => ut.has_capacity_market
  | none => false

/-- Python truthiness of `utility.get(capacity_price_2024)`: the key is
present and its value non-zero. -/
def capacity_price_truthy (u : Option Utility) : Bool :=
  match u with
  | some ut =>
    match ut.capacity_price_2024 with
    | some p => decide (p ≠ 0)
    | none => false
  | none => false

def capacity_price_of (u : Option Utility) : ℚ :=
  match u with
  | some ut => ut.capacity_price_2024.getD 0
  | none => 0

def pass_through_of (u : Option Utility) : ℚ :=
  match u with
  | some ut => ut.capacity_cost_pass_through.getD 0.40
  | none => 0.40

/-- `base_capacity_cost` (source lines 252-262): blended with the capacity
price when a capacity market with a truthy price exists, then overridden to
half the generic cost for ERCOT. -/
def base_capacity_cost_of (u : Option Utility) : ℚ :=
  if market_type_of u = "ercot" then capacity_cost_per_mw_year * 0.50
  else if has_capacity_market_of u ∧ capacity_price_truthy u then
    capacity_cost_per_mw_year * 0.5 + (capacity_price_of u * 365) * pass_through_of u * 0.5
  else capacity_cost_per_mw_year

/-- Annualized transmission + distribution cost (source lines 229-247);
`effective_peak = cap*pc - onsite_gen`, and the ERCOT branch uses the 4CP
contribution (the same expression). -/
def annualized_infra_cost_of (dc_capacity_mw peak_coincidence onsite_gen_mw : ℚ)
    (u : Option Utility) : ℚ :=
  (if market_type_of u = "ercot" then
    max 0 (dc_capacity_mw * peak_coincidence - onsite_gen_mw) * 1000 *
        ercot_4cp_transmission_rate * 12 +
      max 0 (dc_capacity_mw * peak_coincidence - onsite_gen_mw) *
        transmission_cost_per_mw * 0.3 / 20
  else
    max 0 (dc_capacity_mw * peak_coincidence - onsite_gen_mw) * transmission_cost_per_mw / 20) +
  max 0 (dc_capacity_mw * peak_coincidence - onsite_gen_mw) * distribution_cost_per_mw / 20

/-- `net_capacity_cost_per_mw` (source lines 274-275). -/
def net_capacity_cost_per_mw_of (u : Option Utility) : ℚ :=
  max 0 (base_capacity_cost_of u - coincident_peak_charge_per_mw_month * 12)

/-- `capacity_credit` (source lines 281-287): non-zero only when the credit
is enabled and the load is flexible (`peak_coincidence < 1`). -/
def capacity_credit_of (dc_capacity_mw peak_coincidence onsite_gen_mw : ℚ)
    (include_capacity_credit : Bool) (u : Option Utility) : ℚ :=
  if include_capacity_credit ∧ peak_coincidence < 1 then
    dc_capacity_mw * (1 - peak_coincidence) * base_capacity_cost_of u *
        (if has_capacity_market_of u then 0.90 else 0.80) +
      onsite_gen_mw * base_capacity_cost_of u * 0.95
  else 0

/-- `capacity_cost_or_credit` (source lines 276, 288). -/
def capacity_cost_or_credit_of (dc_capacity_mw peak_coincidence onsite_gen_mw : ℚ)
    (include_capacity_credit : Bool) (u : Option Utility) : ℚ :=
  max 0 (dc_capacity_mw * peak_coincidence - onsite_gen_mw) * net_capacity_cost_per_mw_of u -
    capacity_credit_of dc_capacity_mw peak_coincidence onsite_gen_mw include_capacity_credit u

/-- Revenue offset used by the net impact model (source lines 267-271,
295-297): the revenue model is invoked with
`effective_capacity_mw = dc_capacity_mw` (the full nameplate capacity). -/
def revenue_offset_of (dc_capacity_mw load_factor peak_coincidence : ℚ)
    (u : Option Utility) : ℚ :=
  let dc_revenue := calculate_dc_revenue_offset dc_capacity_mw load_factor peak_coincidence
    (some dc_capacity_mw) (market_type_of u)
  let energy_margin_flow_through : ℚ := if market_type_of u = "ercot" then 0.90 else 0.85
  let ncp_demand_benefit := dc_revenue.ncp_demand_revenue * 0.20
  dc_revenue.energy_margin * energy_margin_flow_through + ncp_demand_benefit

/-- `adjusted_allocation` (source lines 304-310). -/
def adjusted_allocation_of (residential_allocation : ℚ) (u : Option Utility) : ℚ :=
  if market_type_of u = "ercot" then residential_allocation * 0.70
  else if has_capacity_market_of u ∧ capacity_price_of u > 100 then
    residential_allocation * min 1.15 (1 + (capacity_price_of u - 100) / 1000)
  else residential_allocation

structure ImpactResult where
  per_customer_monthly : ℚ
  gross_cost : ℚ
  revenue_offset : ℚ
  net_impact : ℚ
  market_type : String
  adjusted_allocation : ℚ
  capacity_credit : ℚ
  is_flexible : Bool

/-- `calculate_net_residential_impact` from the source. -/
def calculate_net_residential_impact (dc_capacity_mw load_factor peak_coincidence : ℚ)
    (residential_customers : ℚ) (residential_allocation : ℚ)
    (include_capacity_credit : Bool) (onsite_gen_mw : ℚ) (utility : Option Utility) :
    ImpactResult :=
  let gross_annual_infra_cost :=
    annualized_infra_cost_of dc_capacity_mw peak_coincidence onsite_gen_mw utility +
      capacity_cost_or_credit_of dc_capacity_mw peak_coincidence onsite_gen_mw
        include_capacity_credit utility
  let revenue_offset := revenue_offset_of dc_capacity_mw load_factor peak_coincidence utility
  let net_annual_impact := gross_annual_infra_cost - revenue_offset
  let adjusted_allocation := adjusted_allocation_of residential_allocation utility
  let residential_impact := net_annual_impact * adjusted_allocation
  { per_customer_monthly := residential_impact / residential_customers / 12
    gross_cost := gross_annual_infra_cost
    revenue_offset := revenue_offset
    net_impact := net_annual_impact
    market_type := market_type_of utility
    adjusted_allocation := adjusted_allocation
    capacity_credit := capacity_credit_of dc_capacity_mw peak_coincidence onsite_gen_mw
      include_capacity_credit utility
    is_flexible := decide (peak_coincidence < 1) }

/-! ## Trajectories

Each Python loop body depends only on the loop index `year`, so each
trajectory `monthly_bills` list is the image of that body over
`List.range (years + 1)`. -/

structure Trajectory where
  years : List ℕ
  monthly_bills : List ℚ
  scenario : String

/-- `baseline_increase_rate` (source lines 339-343). -/
def baseline_increase_rate : ℚ :=
  general_inflation + annual_baseline_upgrade_pct + 0.005

/-- Loop body of `calculate_baseline_trajectory`. -/
def baseline_bill (utility : Utility) (year : ℕ) : ℚ :=
  if year = 0 then utility.avg_monthly_bill
  else utility.avg_monthly_bill * (1 + baseline_increase_rate) ^ year

/-- `calculate_baseline_trajectory` from the source. -/
def calculate_baseline_trajectory (utility : Utility) (years : ℕ) : Trajectory :=
  { years := (List.range (years + 1)).map (fun year => base_year + year)
    monthly_bills := (List.range (years + 1)).map (baseline_bill utility)
    scenario := "baseline" }

/-- Loop body of `calculate_unoptimized_trajectory` (firm load scenario). -/
def unoptimized_bill (utility : Utility) (datacenter : DataCenter) (year : ℕ) : ℚ :=
  if year < 2 then baseline_bill utility year
  else
    let phase_in : ℚ := if year = 2 then 0.5 else 1.0
    let years_online := year - 2
    let firm_lf := datacenter.firm_load_factor.getD 0.80
    let firm_peak := datacenter.firm_peak_coincidence.getD 1.0
    let allocation_result := calculate_residential_allocation utility
      datacenter.capacity_mw firm_lf firm_peak years_online
    let impact_result := calculate_net_residential_impact datacenter.capacity_mw
      firm_lf firm_peak utility.residential_customers allocation_result.allocation
      false 0 (some utility)
    let dc_impact := impact_result.per_customer_monthly * phase_in
    let dc_impact :=
      if dc_impact > 0 then dc_impact * (1 + general_inflation) ^ years_online
      else dc_impact * (1 + general_inflation * 0.8) ^ years_online
    baseline_bill utility year + dc_impact

/-- `calculate_unoptimized_trajectory` from the source. -/
def calculate_unoptimized_trajectory (utility : Utility) (datacenter : DataCenter)
    (years : ℕ) : Trajectory :=
  { years := (List.range (years + 1)).map (fun year => base_year + year)
    monthly_bills := (List.range (years + 1)).map (unoptimized_bill utility datacenter)
    scenario := "unoptimized" }

/-- Loop body of `calculate_flexible_trajectory`. -/
def flexible_bill (utility : Utility) (datacenter : DataCenter) (year : ℕ) : ℚ :=
  if year < 2 then baseline_bill utility year
  else
    let phase_in : ℚ := if year = 2 then 0.5 else 1.0
    let years_online := year - 2
    let flex_lf := datacenter.flex_load_factor.getD 0.95
    let flex_peak := datacenter.flex_peak_coincidence.getD 0.75
    let allocation_result := calculate_residential_allocation utility
      datacenter.capacity_mw flex_lf flex_peak years_online
    let impact_result := calculate_net_residential_impact datacenter.capacity_mw
      flex_lf flex_peak utility.residential_customers allocation_result.allocation
      true 0 (some utility)
    let dc_impact := impact_result.per_customer_monthly * phase_in
    let dc_impact :=
      if dc_impact > 0 then dc_impact * (1 + general_inflation) ^ years_online
      else dc_impact * (1 + general_inflation * 0.9) ^ years_online
    baseline_bill utility year + dc_impact

/-- `calculate_flexible_trajectory` from the source. -/
def calculate_flexible_trajectory (utility : Utility) (datacenter : DataCenter)
    (years : ℕ) : Trajectory :=
  { years := (List.range (years + 1)).map (fun year => base_year + year)
    monthly_bills := (List.range (years + 1)).map (flexible_bill utility datacenter)
    scenario := "flexible" }

/-- Loop body of `calculate_dispatchable_trajectory` (flexible + generation). -/
def dispatchable_bill (utility : Utility) (datacenter : DataCenter) (year : ℕ) : ℚ :=
  if year < 2 then baseline_bill utility year
  else
    let phase_in : ℚ := if year = 2 then 0.5 else 1.0
    let years_online := year - 2
    let flex_lf := datacenter.flex_load_factor.getD 0.95
    let flex_peak := datacenter.flex_peak_coincidence.getD 0.75
    let onsite_gen := datacenter.onsite_generation_mw.getD (datacenter.capacity_mw * 0.2)
    let effective_peak := max 0 (flex_peak - onsite_gen / datacenter.capacity_mw)
    let allocation_result := calculate_residential_allocation utility
      datacenter.capacity_mw flex_lf effective_peak years_online
    let impact_result := calculate_net_residential_impact datacenter.capacity_mw
      flex_lf flex_peak utility.residential_customers allocation_result.allocation
      true onsite_gen (some utility)
    let dc_impact := impact_result.per_customer_monthly * phase_in
    let dc_impact :=
      if dc_impact > 0 then dc_impact * (1 + general_inflation) ^ years_online
      else dc_impact * (1 + general_inflation * 0.95) ^ years_online
    baseline_bill utility year + dc_impact

/-- `calculate_dispatchable_trajectory` from the source. -/
def calculate_dispatchable_trajectory (utility : Utility) (datacenter : DataCenter)
    (years : ℕ) : Trajectory :=
  { years := (List.range (years + 1)).map (fun year => base_year + year)
    monthly_bills := (List.range (years + 1)).map (dispatchable_bill utility datacenter)
    scenario := "dispatchable" }

/-! ## Summary statistics (`calculate_summary_stats`)

Python indexes `monthly_bills[-1]` on each trajectory, which raises on an
empty list: modelled with `List.getLast?` and an `Option` result,
`none` meaning the Python call raises. -/

structure SummaryStats where
  current_monthly_bill : ℚ
  baseline_final : ℚ
  unoptimized_final : ℚ
  flexible_final : ℚ
  dispatchable_final : ℚ
  diff_unoptimized : ℚ
  diff_flexible : ℚ
  diff_dispatchable : ℚ
  savings_flexible : ℚ
  savings_dispatchable : ℚ
  cum_baseline : ℚ
  cum_unoptimized : ℚ
  cum_flexible : ℚ
  cum_dispatchable : ℚ

/-- `calculate_summary_stats` from the source. -/
def calculate_summary_stats (tb tu tf td : Trajectory) (utility : Utility) :
    Option SummaryStats :=
  match tb.monthly_bills.getLast?, tu.monthly_bills.getLast?,
      tf.monthly_bills.getLast?, td.monthly_bills.getLast? with
  | some baseline_final, some unoptimized_final, some flexible_final, some dispatchable_final =>
    some
      { current_monthly_bill := utility.avg_monthly_bill
        baseline_final := baseline_final
        unoptimized_final := unoptimized_final
        flexible_final := flexible_final
        dispatchable_final := dispatchable_final
        diff_unoptimized := unoptimized_final - baseline_final
        diff_flexible := flexible_final - baseline_final
        diff_dispatchable := dispatchable_final - baseline_final
        savings_flexible := unoptimized_final - flexible_final
        savings_dispatchable := unoptimized_final - dispatchable_final
        cum_baseline := (tb.monthly_bills.map (fun b => b * 12)).sum
        cum_unoptimized := (tu.monthly_bills.map (fun b => b * 12)).sum
        cum_flexible := (tf.monthly_bills.map (fun b => b * 12)).sum
        cum_dispatchable := (td.monthly_bills.map (fun b => b * 12)).sum }
  | _, _, _, _ => none

/-! ## Helper lemmas -/

theorem map_range_getD (f : ℕ → ℚ) (n k : ℕ) (h : k < n) :
    ((List.range n).map f).getD k 0 = f k := by
  simp [List.getD_eq_getElem?_getD, List.getElem?_map, List.getElem?_range h]

theorem regulated_ne_ercot : ("regulated" : String) ≠ "ercot" := by decide

/-! ## Claims -/

/-- C2: for every utility profile, data-center capacity, load factor, peak
coincidence and `years_online`, the `allocation` field returned by
`calculate_residential_allocation` lies in the closed interval
`[0.15, 0.50]`. -/
theorem allocation_bounds (u : Utility) (cap lf pc : ℚ) (y : ℕ) :
    0.15 ≤ (calculate_residential_allocation u cap lf pc y).allocation ∧
      (calculate_residential_allocation u cap lf pc y).allocation ≤ 0.50 := by
  constructor
  · exact le_max_left _ _
  · exact max_le (by norm_num) (min_le_left _ _)

/-- C3: before clamping, the residential allocation is exactly
`base*(1-regLag) + blend*regLag` with `regLag = min 1 (yearsOnline/5)`,
`blend = 0.40*volumetric + 0.40*demand + 0.20*customer`, the data center
energy and peak contributions scaled by `min 1 (yearsOnline/3)`, and the
customer share dividing residential customers by
residential+commercial+industrial customers plus one; the returned
`allocation` is the clamp of that value to `[0.15, 0.50]`. -/
theorem allocation_unclamped_formula (u : Utility) (cap lf pc : ℚ) (y : ℕ) :
    residential_allocation_unclamped u cap lf pc y =
      u.base_residential_allocation * (1 - min 1 ((y : ℚ) / 5)) +
        (0.40 * (u.pre_dc_system_energy_gwh * 1000 * u.residential_energy_share /
            (u.pre_dc_system_energy_gwh * 1000 + cap * lf * 8760 * min 1 ((y : ℚ) / 3))) +
          0.40 * (u.system_peak_mw * 0.45 /
            (u.system_peak_mw + cap * pc * min 1 ((y : ℚ) / 3))) +
          0.20 * (u.residential_customers /
            (u.residential_customers + u.commercial_customers +
              u.industrial_customers + 1))) *
          min 1 ((y : ℚ) / 5) ∧
    (calculate_residential_allocation u cap lf pc y).allocation =
      max 0.15 (min 0.50 (residential_allocation_unclamped u cap lf pc y)) := by
  constructor
  · simp only [residential_allocation_unclamped]
    ring
  · rfl

/-- C4: the capacity credit of `calculate_net_residential_impact` is
non-zero only when the credit is enabled and `peak_coincidence < 1`, in
which case it is `capacity*(1-peakCoincidence)*baseCapacityCost*(0.90 with
a capacity market, else 0.80) + onsiteGen*baseCapacityCost*0.95`; it is
subtracted from the capacity cost, and the resulting capacity
cost-or-credit can be negative (concretely at the default utility with the
default data-center parameters). -/
theorem capacity_credit_correct (cap lf pc customers alloc : ℚ) (b : Bool) (gen : ℚ)
    (u : Option Utility) :
    ((calculate_net_residential_impact cap lf pc customers alloc b gen u).capacity_credit =
      if b ∧ pc < 1 then
        cap * (1 - pc) * base_capacity_cost_of u *
            (if has_capacity_market_of u then 0.90 else 0.80) +
          gen * base_capacity_cost_of u * 0.95
      else 0) ∧
    (calculate_net_residential_impact cap lf pc customers alloc b gen u).gross_cost =
      annualized_infra_cost_of cap pc gen u +
        (max 0 (cap * pc - gen) * net_capacity_cost_per_mw_of u -
          (calculate_net_residential_impact cap lf pc customers alloc b gen u).capacity_credit) ∧
    capacity_cost_or_credit_of 1000 0.75 200 true (some DEFAULT_UTILITY) < 0 := by
  refine ⟨rfl, rfl, ?_⟩
  norm_num [capacity_cost_or_credit_of, capacity_credit_of, net_capacity_cost_per_mw_of,
    base_capacity_cost_of, has_capacity_market_of, capacity_price_truthy, market_type_of,
    DEFAULT_UTILITY, capacity_cost_per_mw_year, coincident_peak_charge_per_mw_month,
    regulated_ne_ercot]

/-- C10: the net impact model invokes the revenue model with
`effective_capacity_mw` equal to the full nameplate capacity, so the
non-coincident-peak revenue and the energy margin it uses are computed on
full nameplate capacity (`cap * ncpRate * 12` and
`cap * loadFactor * 8760 * marginPerMWh`), unreduced by peak coincidence or
onsite generation. -/
theorem revenue_offset_nameplate (cap lf pc customers alloc : ℚ) (b : Bool) (gen : ℚ)
    (u : Option Utility) :
    (calculate_dc_revenue_offset cap lf pc (some cap) (market_type_of u)).ncp_demand_revenue =
      cap * non_coincident_peak_charge_per_mw_month * 12 ∧
    (calculate_dc_revenue_offset cap lf pc (some cap) (market_type_of u)).energy_margin =
      cap * lf * 8760 * energy_margin_per_mwh ∧
    (calculate_net_residential_impact cap lf pc customers alloc b gen u).revenue_offset =
      (calculate_dc_revenue_offset cap lf pc (some cap) (market_type_of u)).energy_margin *
          (if market_type_of u = "ercot" then 0.90 else 0.85) +
        (calculate_dc_revenue_offset cap lf pc (some cap) (market_type_of u)).ncp_demand_revenue *
          0.20 :=
  ⟨rfl, rfl, rfl⟩

/-- C7: the baseline trajectory bill at year 0 is the utility average
monthly bill exactly; at year `k ≥ 1` it is
`avg * (1 + generalInflation + annualBaselineUpgradePct + 0.005)^k`; this
combined rate is 4.5%, and with the default utility (average bill 130) the
year-10 baseline bill is `130 * 1.045^10`. -/
theorem baseline_formula (u : Utility) (years k : ℕ) (hk : k ≤ years) :
    (calculate_baseline_trajectory u years).monthly_bills.getD 0 0 = u.avg_monthly_bill ∧
    (1 ≤ k → (calculate_baseline_trajectory u years).monthly_bills.getD k 0 =
      u.avg_monthly_bill *
        (1 + (general_inflation + annual_baseline_upgrade_pct + 0.005)) ^ k) ∧
    baseline_increase_rate = 0.045 ∧
    (calculate_baseline_trajectory DEFAULT_UTILITY 10).monthly_bills.getD 10 0 =
      130 * (1.045 : ℚ) ^ 10 := by
  refine ⟨?_, ?_, ?_, ?_⟩
  · simp only [calculate_baseline_trajectory]
    rw [map_range_getD _ _ _ (by omega)]
    simp [baseline_bill]
  · intro h1
    simp only [calculate_baseline_trajectory]
    rw [map_range_getD _ _ _ (by omega)]
    simp only [baseline_bill, baseline_increase_rate]
    rw [if_neg (by omega : ¬ k = 0)]
  · norm_num [baseline_increase_rate, general_inflation, annual_baseline_upgrade_pct]
  · simp only [calculate_baseline_trajectory]
    rw [map_range_getD _ _ _ (by omega)]
    simp only [baseline_bill, baseline_increase_rate]
    norm_num [DEFAULT_UTILITY, general_inflation, annual_baseline_upgrade_pct]

/-- C8 (amended): for any utility with a positive average monthly bill and
any horizon `years ≥ 1`, the baseline trajectory `monthly_bills` list is
strictly increasing from index 0 to index `years`. -/
theorem baseline_strict_mono (u : Utility) (years k : ℕ)
    (hbill : 0 < u.avg_monthly_bill) (hy : 1 ≤ years) (hk : k < years) :
    (calculate_baseline_trajectory u years).monthly_bills.getD k 0 <
      (calculate_baseline_trajectory u years).monthly_bills.getD (k + 1) 0 := by
  simp only [calculate_baseline_trajectory]
  rw [map_range_getD _ _ _ (by omega), map_range_getD _ _ _ (by omega)]
  have hr : (1 : ℚ) < 1 + baseline_increase_rate := by
    norm_num [baseline_increase_rate, general_inflation, annual_baseline_upgrade_pct]
  rcases Nat.eq_zero_or_pos k with hk0 | hk0
  · subst hk0
    have hrr : 0 < baseline_increase_rate := by linarith
    simp only [baseline_bill]
    norm_num
    nlinarith [mul_pos hbill hrr]
  · simp only [baseline_bill]
    rw [if_neg (by omega : ¬ k = 0), if_neg (by omega : ¬ k + 1 = 0), pow_succ]
    have hp : 0 < (1 + baseline_increase_rate) ^ k := pow_pos (by linarith) k
    nlinarith [mul_pos hbill hp]

/-- C8 counterexample: with an average monthly bill of 0 (a utility profile
the claim, quantified over any utility, includes) the baseline bills are
all 0, so the list is not strictly increasing. -/
theorem baseline_strict_mono_counterexample :
    ¬ ((calculate_baseline_trajectory
          { residential_customers := 560000
            commercial_customers := 85000
            industrial_customers := 5000
            avg_monthly_bill := 0
            pre_dc_system_energy_gwh := 20000
            residential_energy_share := 0.35
            system_peak_mw := 4000
            base_residential_allocation := 0.40
            market_type := none
            has_capacity_market := false
            capacity_price_2024 := none
            capacity_cost_pass_through := none } 1).monthly_bills.getD 0 0 <
        (calculate_baseline_trajectory
          { residential_customers := 560000
            commercial_customers := 85000
            industrial_customers := 5000
            avg_monthly_bill := 0
            pre_dc_system_energy_gwh := 20000
            residential_energy_share := 0.35
            system_peak_mw := 4000
            base_residential_allocation := 0.40
            market_type := none
            has_capacity_market := false
            capacity_price_2024 := none
            capacity_cost_pass_through := none } 1).monthly_bills.getD 1 0) := by
  rw [not_lt]
  simp only [calculate_baseline_trajectory]
  rw [map_range_getD _ _ _ (by omega), map_range_getD _ _ _ (by omega)]
  simp [baseline_bill]

/-- C5: for every utility, data center and horizon `years ≥ 1`, every
scenario trajectory agrees with the baseline trajectory at indices 0 and 1;
and for `years < 2` each scenario whole `monthly_bills` list equals that of
the baseline. -/
theorem year01_equivalence (u : Utility) (dc : DataCenter) (years : ℕ) :
    (1 ≤ years →
      ((calculate_unoptimized_trajectory u dc years).monthly_bills.getD 0 0 =
          (calculate_baseline_trajectory u years).monthly_bills.getD 0 0 ∧
        (calculate_unoptimized_trajectory u dc years).monthly_bills.getD 1 0 =
          (calculate_baseline_trajectory u years).monthly_bills.getD 1 0) ∧
      ((calculate_flexible_trajectory u dc years).monthly_bills.getD 0 0 =
          (calculate_baseline_trajectory u years).monthly_bills.getD 0 0 ∧
        (calculate_flexible_trajectory u dc years).monthly_bills.getD 1 0 =
          (calculate_baseline_trajectory u years).monthly_bills.getD 1 0) ∧
      ((calculate_dispatchable_trajectory u dc years).monthly_bills.getD 0 0 =
          (calculate_baseline_trajectory u years).monthly_bills.getD 0 0 ∧
        (calculate_dispatchable_trajectory u dc years).monthly_bills.getD 1 0 =
          (calculate_baseline_trajectory u years).monthly_bills.getD 1 0)) ∧
    (years < 2 →
      (calculate_unoptimized_trajectory u dc years).monthly_bills =
          (calculate_baseline_trajectory u years).monthly_bills ∧
        (calculate_flexible_trajectory u dc years).monthly_bills =
          (calculate_baseline_trajectory u years).monthly_bills ∧
        (calculate_dispatchable_trajectory u dc years).monthly_bills =
          (calculate_baseline_trajectory u years).monthly_bills) := by
  constructor
  · intro hy
    have h0 : 0 < years + 1 := by omega
    have h1 : 1 < years + 1 := by omega
    refine ⟨⟨?_, ?_⟩, ⟨?_, ?_⟩, ⟨?_, ?_⟩⟩ <;>
      simp only [calculate_unoptimized_trajectory, calculate_flexible_trajectory,
        calculate_dispatchable_trajectory, calculate_baseline_trajectory] <;>
      rw [map_range_getD _ _ _ (by omega), map_range_getD _ _ _ (by omega)] <;>
      simp [unoptimized_bill, flexible_bill, dispatchable_bill]
  · intro hy
    refine ⟨?_, ?_, ?_⟩ <;>
      simp only [calculate_unoptimized_trajectory, calculate_flexible_trajectory,
        calculate_dispatchable_trajectory, calculate_baseline_trajectory] <;>
      refine List.map_congr_left ?_ <;>
      intro a ha <;>
      rw [List.mem_range] at ha <;>
      have ha2 : a < 2 := by omega
    · simp only [unoptimized_bill]
      rw [if_pos ha2]
    · simp only [flexible_bill]
      rw [if_pos ha2]
    · simp only [dispatchable_bill]
      rw [if_pos ha2]

/-- C6: for `years ≥ 2`, each scenario year-2 bill exceeds the baseline
year-2 bill by exactly half the per-customer-monthly impact computed by the
allocation and net-impact models at `years_online = 0`, with no inflation
escalation. -/
theorem phase_in_continuity (u : Utility) (dc : DataCenter) (years : ℕ) (h : 2 ≤ years) :
    ((calculate_unoptimized_trajectory u dc years).monthly_bills.getD 2 0 -
        (calculate_baseline_trajectory u years).monthly_bills.getD 2 0 =
      0.5 * (calculate_net_residential_impact dc.capacity_mw
          (dc.firm_load_factor.getD 0.80) (dc.firm_peak_coincidence.getD 1.0)
          u.residential_customers
          (calculate_residential_allocation u dc.capacity_mw
            (dc.firm_load_factor.getD 0.80) (dc.firm_peak_coincidence.getD 1.0) 0).allocation
          false 0 (some u)).per_customer_monthly) ∧
    ((calculate_flexible_trajectory u dc years).monthly_bills.getD 2 0 -
        (calculate_baseline_trajectory u years).monthly_bills.getD 2 0 =
      0.5 * (calculate_net_residential_impact dc.capacity_mw
          (dc.flex_load_factor.getD 0.95) (dc.flex_peak_coincidence.getD 0.75)
          u.residential_customers
          (calculate_residential_allocation u dc.capacity_mw
            (dc.flex_load_factor.getD 0.95) (dc.flex_peak_coincidence.getD 0.75) 0).allocation
          true 0 (some u)).per_customer_monthly) ∧
    ((calculate_dispatchable_trajectory u dc years).monthly_bills.getD 2 0 -
        (calculate_baseline_trajectory u years).monthly_bills.getD 2 0 =
      0.5 * (calculate_net_residential_impact dc.capacity_mw
          (dc.flex_load_factor.getD 0.95) (dc.flex_peak_coincidence.getD 0.75)
          u.residential_customers
          (calculate_residential_allocation u dc.capacity_mw
            (dc.flex_load_factor.getD 0.95)
            (max 0 (dc.flex_peak_coincidence.getD 0.75 -
              (dc.onsite_generation_mw.getD (dc.capacity_mw * 0.2)) / dc.capacity_mw)) 0).allocation
          true (dc.onsite_generation_mw.getD (dc.capacity_mw * 0.2))
          (some u)).per_customer_monthly) := by
  have h2 : 2 < years + 1 := by omega
  refine ⟨?_, ?_, ?_⟩ <;>
    simp only [calculate_unoptimized_trajectory, calculate_flexible_trajectory,
      calculate_dispatchable_trajectory, calculate_baseline_trajectory] <;>
    rw [map_range_getD _ _ _ h2, map_range_getD _ _ _ h2] <;>
    simp only [unoptimized_bill, flexible_bill, dispatchable_bill] <;>
    norm_num <;>
    ring

/-- C9: whenever the four trajectories have equal, non-zero length,
`calculate_summary_stats` returns a complete `SummaryStats` (no failure):
final-year bills are the last elements, deltas are scenario minus baseline,
savings are unoptimized minus the optimized scenarios, and cumulative costs
are the 12-month-scaled sums. -/
theorem summary_stats_total (tb tu tf td : Trajectory) (u : Utility)
    (hne : tb.monthly_bills ≠ [])
    (h1 : tu.monthly_bills.length = tb.monthly_bills.length)
    (h2 : tf.monthly_bills.length = tb.monthly_bills.length)
    (h3 : td.monthly_bills.length = tb.monthly_bills.length) :
    ∃ s, calculate_summary_stats tb tu tf td u = some s ∧
      tb.monthly_bills.getLast? = some s.baseline_final ∧
      tu.monthly_bills.getLast? = some s.unoptimized_final ∧
      tf.monthly_bills.getLast? = some s.flexible_final ∧
      td.monthly_bills.getLast? = some s.dispatchable_final ∧
      s.current_monthly_bill = u.avg_monthly_bill ∧
      s.diff_unoptimized = s.unoptimized_final - s.baseline_final ∧
      s.diff_flexible = s.flexible_final - s.baseline_final ∧
      s.diff_dispatchable = s.dispatchable_final - s.baseline_final ∧
      s.savings_flexible = s.unoptimized_final - s.flexible_final ∧
      s.savings_dispatchable = s.unoptimized_final - s.dispatchable_final ∧
      s.cum_baseline = (tb.monthly_bills.map (fun b => b * 12)).sum ∧
      s.cum_unoptimized = (tu.monthly_bills.map (fun b => b * 12)).sum ∧
      s.cum_flexible = (tf.monthly_bills.map (fun b => b * 12)).sum ∧
      s.cum_dispatchable = (td.monthly_bills.map (fun b => b * 12)).sum := by
  have hu : tu.monthly_bills ≠ [] := by
    intro hc
    rw [hc] at h1
    exact hne (List.length_eq_zero.mp (by simpa using h1.symm))
  have hf : tf.monthly_bills ≠ [] := by
    intro hc
    rw [hc] at h2
    exact hne (List.length_eq_zero.mp (by simpa using h2.symm))
  have hd : td.monthly_bills ≠ [] := by
    intro hc
    rw [hc] at h3
    exact hne (List.length_eq_zero.mp (by simpa using h3.symm))
  have eb := List.getLast?_eq_getLast_of_ne_nil hne
  have eu := List.getLast?_eq_getLast_of_ne_nil hu
  have ef := List.getLast?_eq_getLast_of_ne_nil hf
  have ed := List.getLast?_eq_getLast_of_ne_nil hd
  refine ⟨{ current_monthly_bill := u.avg_monthly_bill
            baseline_final := tb.monthly_bills.getLast hne
            unoptimized_final := tu.monthly_bills.getLast hu
            flexible_final := tf.monthly_bills.getLast hf
            dispatchable_final := td.monthly_bills.getLast hd
            diff_unoptimized := tu.monthly_bills.getLast hu - tb.monthly_bills.getLast hne
            diff_flexible := tf.monthly_bills.getLast hf - tb.monthly_bills.getLast hne
            diff_dispatchable := td.monthly_bills.getLast hd - tb.monthly_bills.getLast hne
            savings_flexible := tu.monthly_bills.getLast hu - tf.monthly_bills.getLast hf
            savings_dispatchable := tu.monthly_bills.getLast hu - td.monthly_bills.getLast hd
            cum_baseline := (tb.monthly_bills.map (fun b => b * 12)).sum
            cum_unoptimized := (tu.monthly_bills.map (fun b => b * 12)).sum
            cum_flexible := (tf.monthly_bills.map (fun b => b * 12)).sum
            cum_dispatchable := (td.monthly_bills.map (fun b => b * 12)).sum },
    ?_, by rw [eb], by rw [eu], by rw [ef], by rw [ed],
    rfl, rfl, rfl, rfl, rfl, rfl, rfl, rfl, rfl, rfl⟩
  unfold calculate_summary_stats
  rw [eb, eu, ef, ed]

/-! ## Flexible-vs-firm comparison (supporting lemmas) -/

theorem base_capacity_cost_nonneg (u : Option Utility)
    (hp : 0 ≤ capacity_price_of u) (hpt : 0 ≤ pass_through_of u) :
    0 ≤ base_capacity_cost_of u := by
  unfold base_capacity_cost_of capacity_cost_per_mw_year
  split
  · norm_num
  · split
    · nlinarith [mul_nonneg (mul_nonneg hp (show (0 : ℚ) ≤ 365 by norm_num)) hpt]
    · norm_num

theorem capacity_credit_nonneg (cap pc gen : ℚ) (b : Bool) (u : Option Utility)
    (hcap : 0 ≤ cap) (hpc : pc ≤ 1) (hgen : 0 ≤ gen)
    (hB : 0 ≤ base_capacity_cost_of u) :
    0 ≤ capacity_credit_of cap pc gen b u := by
  unfold capacity_credit_of
  split
  · have h1 : (0 : ℚ) ≤ 1 - pc := by linarith
    have hm : (0 : ℚ) ≤ if has_capacity_market_of u then 0.90 else 0.80 := by
      split <;> norm_num
    have t1 : 0 ≤ cap * (1 - pc) * base_capacity_cost_of u :=
      mul_nonneg (mul_nonneg hcap h1) hB
    have t2 : 0 ≤ gen * base_capacity_cost_of u := mul_nonneg hgen hB
    nlinarith [mul_nonneg t1 hm, t2]
  · exact le_refl 0

theorem effective_peak_max_mono (cap pc : ℚ) (hcap : 0 ≤ cap) (hpc : pc ≤ 1) :
    max 0 (cap * pc - 0) ≤ max 0 (cap * 1 - 0) := by
  apply max_le_max le_rfl
  nlinarith

theorem infra_mono (cap pc : ℚ) (u : Option Utility) (hcap : 0 ≤ cap) (hpc : pc ≤ 1) :
    annualized_infra_cost_of cap pc 0 u ≤ annualized_infra_cost_of cap 1 0 u := by
  have hm := effective_peak_max_mono cap pc hcap hpc
  by_cases hmt : market_type_of u = "ercot"
  · simp only [annualized_infra_cost_of, if_pos hmt]
    unfold ercot_4cp_transmission_rate transmission_cost_per_mw distribution_cost_per_mw
    nlinarith [hm]
  · simp only [annualized_infra_cost_of, if_neg hmt]
    unfold transmission_cost_per_mw distribution_cost_per_mw
    nlinarith [hm]

theorem ccoc_flex_le_firm (cap pc : ℚ) (u : Option Utility)
    (hcap : 0 ≤ cap) (hpc : pc ≤ 1) (hB : 0 ≤ base_capacity_cost_of u) :
    capacity_cost_or_credit_of cap pc 0 true u ≤
      capacity_cost_or_credit_of cap 1 0 false u := by
  have hcred : 0 ≤ capacity_credit_of cap pc 0 true u :=
    capacity_credit_nonneg cap pc 0 true u hcap hpc (le_refl 0) hB
  have hcred2 : capacity_credit_of cap 1 0 false u = 0 := by
    simp [capacity_credit_of]
  have hncc : 0 ≤ net_capacity_cost_per_mw_of u := le_max_left 0 _
  have hm := effective_peak_max_mono cap pc hcap hpc
  unfold capacity_cost_or_credit_of
  rw [hcred2]
  nlinarith [mul_le_mul_of_nonneg_right hm hncc]

theorem revenue_offset_mono (cap lf1 lf2 pc1 pc2 : ℚ) (u : Option Utility)
    (hcap : 0 ≤ cap) (hlf : lf1 ≤ lf2) :
    revenue_offset_of cap lf1 pc1 u ≤ revenue_offset_of cap lf2 pc2 u := by
  have hF : (0 : ℚ) ≤ if market_type_of u = "ercot" then 0.90 else 0.85 := by
    split <;> norm_num
  simp only [revenue_offset_of, calculate_dc_revenue_offset, Option.getD_some]
  unfold energy_margin_per_mwh non_coincident_peak_charge_per_mw_month
  nlinarith [mul_le_mul_of_nonneg_right (mul_le_mul_of_nonneg_left hlf hcap) hF]

theorem adjusted_allocation_nonneg (alloc : ℚ) (u : Option Utility) (h : 0 ≤ alloc) :
    0 ≤ adjusted_allocation_of alloc u := by
  unfold adjusted_allocation_of
  split
  · nlinarith
  · split
    · rename_i hc
      have hmin : (0 : ℚ) ≤ min 1.15 (1 + (capacity_price_of u - 100) / 1000) :=
        le_min (by norm_num) (by nlinarith [hc.2])
      exact mul_nonneg h hmin
    · exact h

/-! ## C1 -/

/-- C1 counterexample: with everything else held equal at the defaults
(capacity 1000 MW, 560000 residential customers, allocation 0.40, default
regulated utility), the flexible call with load factor 0 and peak
coincidence 0.99 (< 1) and the capacity credit enabled yields a strictly
larger `per_customer_monthly` and `net_impact` than the firm call with load
factor 0.80 and peak coincidence 1 and no credit: the claimed `≤` fails. -/
theorem flexible_le_firm_counterexample :
    ¬ ((calculate_net_residential_impact 1000 0 0.99 560000 0.40 true 0
          (some DEFAULT_UTILITY)).per_customer_monthly ≤
        (calculate_net_residential_impact 1000 0.80 1 560000 0.40 false 0
          (some DEFAULT_UTILITY)).per_customer_monthly) ∧
    ¬ ((calculate_net_residential_impact 1000 0 0.99 560000 0.40 true 0
          (some DEFAULT_UTILITY)).net_impact ≤
        (calculate_net_residential_impact 1000 0.80 1 560000 0.40 false 0
          (some DEFAULT_UTILITY)).net_impact) := by
  constructor <;>
  · rw [not_le]
    norm_num [calculate_net_residential_impact, capacity_cost_or_credit_of,
      capacity_credit_of, net_capacity_cost_per_mw_of, base_capacity_cost_of,
      has_capacity_market_of, capacity_price_truthy, market_type_of,
      annualized_infra_cost_of, revenue_offset_of, calculate_dc_revenue_offset,
      adjusted_allocation_of, capacity_price_of, DEFAULT_UTILITY,
      capacity_cost_per_mw_year, coincident_peak_charge_per_mw_month,
      non_coincident_peak_charge_per_mw_month, energy_margin_per_mwh,
      transmission_cost_per_mw, distribution_cost_per_mw,
      ercot_4cp_transmission_rate, regulated_ne_ercot]

/-- C1 (amended): with capacity, customer count, utility/market profile and
allocation fraction held equal — and the flexible load factor at least the
firm load factor, with valid inputs (non-negative capacity and allocation,
positive customer count, non-negative capacity price and pass-through) —
the flexible call (peak coincidence < 1, capacity credit enabled) yields
`per_customer_monthly` and `net_impact` less than or equal to the firm call
(peak coincidence 1, no credit). -/
theorem net_impact_flexible_le_firm (cap lf_firm lf_flex pc_flex customers alloc : ℚ)
    (ut : Utility) (hcap : 0 ≤ cap) (hpc : pc_flex < 1) (hlf : lf_firm ≤ lf_flex)
    (hcust : 0 < customers) (halloc : 0 ≤ alloc)
    (hprice : 0 ≤ capacity_price_of (some ut))
    (hpass : 0 ≤ pass_through_of (some ut)) :
    (calculate_net_residential_impact cap lf_flex pc_flex customers alloc true 0
        (some ut)).per_customer_monthly ≤
      (calculate_net_residential_impact cap lf_firm 1 customers alloc false 0
        (some ut)).per_customer_monthly ∧
    (calculate_net_residential_impact cap lf_flex pc_flex customers alloc true 0
        (some ut)).net_impact ≤
      (calculate_net_residential_impact cap lf_firm 1 customers alloc false 0
        (some ut)).net_impact := by
  have hB := base_capacity_cost_nonneg (some ut) hprice hpass
  have hinfra := infra_mono cap pc_flex (some ut) hcap (le_of_lt hpc)
  have hccoc := ccoc_flex_le_firm cap pc_flex (some ut) hcap (le_of_lt hpc) hB
  have hrev := revenue_offset_mono cap lf_firm lf_flex 1 pc_flex (some ut) hcap hlf
  have hadj := adjusted_allocation_nonneg alloc (some ut) halloc
  have hnet : (calculate_net_residential_impact cap lf_flex pc_flex customers alloc true 0
      (some ut)).net_impact ≤
      (calculate_net_residential_impact cap lf_firm 1 customers alloc false 0
        (some ut)).net_impact := by
    simp only [calculate_net_residential_impact]
    linarith [hinfra, hccoc, hrev]
  refine ⟨?_, hnet⟩
  simp only [calculate_net_residential_impact] at hnet ⊢
  have h1 := mul_le_mul_of_nonneg_right hnet hadj
  have h2 := (div_le_div_iff_of_pos_right hcust).mpr h1
  exact (div_le_div_iff_of_pos_right (by norm_num : (0 : ℚ) < 12)).mpr h2

/-! ## Witnesses -/

/-- Witness for C1 (amended), at the default firm/flexible parameters. -/
theorem net_impact_flexible_le_firm_witness :
    (calculate_net_residential_impact 1000 0.95 0.75 560000 0.40 true 0
        (some DEFAULT_UTILITY)).per_customer_monthly ≤
      (calculate_net_residential_impact 1000 0.80 1 560000 0.40 false 0
        (some DEFAULT_UTILITY)).per_customer_monthly ∧
    (calculate_net_residential_impact 1000 0.95 0.75 560000 0.40 true 0
        (some DEFAULT_UTILITY)).net_impact ≤
      (calculate_net_residential_impact 1000 0.80 1 560000 0.40 false 0
        (some DEFAULT_UTILITY)).net_impact :=
  net_impact_flexible_le_firm 1000 0.80 0.95 0.75 560000 0.40 DEFAULT_UTILITY
    (by norm_num) (by norm_num) (by norm_num) (by norm_num) (by norm_num)
    (by norm_num [capacity_price_of, DEFAULT_UTILITY])
    (by norm_num [pass_through_of, DEFAULT_UTILITY])

/-- Witness for C5 at the defaults with a one-year horizon. -/
theorem year01_equivalence_witness :
    (((calculate_unoptimized_trajectory DEFAULT_UTILITY DEFAULT_DATA_CENTER 1).monthly_bills.getD 0 0 =
          (calculate_baseline_trajectory DEFAULT_UTILITY 1).monthly_bills.getD 0 0 ∧
        (calculate_unoptimized_trajectory DEFAULT_UTILITY DEFAULT_DATA_CENTER 1).monthly_bills.getD 1 0 =
          (calculate_baseline_trajectory DEFAULT_UTILITY 1).monthly_bills.getD 1 0) ∧
      ((calculate_flexible_trajectory DEFAULT_UTILITY DEFAULT_DATA_CENTER 1).monthly_bills.getD 0 0 =
          (calculate_baseline_trajectory DEFAULT_UTILITY 1).monthly_bills.getD 0 0 ∧
        (calculate_flexible_trajectory DEFAULT_UTILITY DEFAULT_DATA_CENTER 1).monthly_bills.getD 1 0 =
          (calculate_baseline_trajectory DEFAULT_UTILITY 1).monthly_bills.getD 1 0) ∧
      ((calculate_dispatchable_trajectory DEFAULT_UTILITY DEFAULT_DATA_CENTER 1).monthly_bills.getD 0 0 =
          (calculate_baseline_trajectory DEFAULT_UTILITY 1).monthly_bills.getD 0 0 ∧
        (calculate_dispatchable_trajectory DEFAULT_UTILITY DEFAULT_DATA_CENTER 1).monthly_bills.getD 1 0 =
          (calculate_baseline_trajectory DEFAULT_UTILITY 1).monthly_bills.getD 1 0)) ∧
    ((calculate_unoptimized_trajectory DEFAULT_UTILITY DEFAULT_DATA_CENTER 1).monthly_bills =
        (calculate_baseline_trajectory DEFAULT_UTILITY 1).monthly_bills ∧
      (calculate_flexible_trajectory DEFAULT_UTILITY DEFAULT_DATA_CENTER 1).monthly_bills =
        (calculate_baseline_trajectory DEFAULT_UTILITY 1).monthly_bills ∧
      (calculate_dispatchable_trajectory DEFAULT_UTILITY DEFAULT_DATA_CENTER 1).monthly_bills =
        (calculate_baseline_trajectory DEFAULT_UTILITY 1).monthly_bills) :=
  ⟨(year01_equivalence DEFAULT_UTILITY DEFAULT_DATA_CENTER 1).1 (by norm_num),
    (year01_equivalence DEFAULT_UTILITY DEFAULT_DATA_CENTER 1).2 (by norm_num)⟩

/-- Witness for C6 at the defaults with a two-year horizon (firm scenario
conjunct). -/
theorem phase_in_continuity_witness :
    (calculate_unoptimized_trajectory DEFAULT_UTILITY DEFAULT_DATA_CENTER 2).monthly_bills.getD 2 0 -
        (calculate_baseline_trajectory DEFAULT_UTILITY 2).monthly_bills.getD 2 0 =
      0.5 * (calculate_net_residential_impact DEFAULT_DATA_CENTER.capacity_mw
          (DEFAULT_DATA_CENTER.firm_load_factor.getD 0.80)
          (DEFAULT_DATA_CENTER.firm_peak_coincidence.getD 1.0)
          DEFAULT_UTILITY.residential_customers
          (calculate_residential_allocation DEFAULT_UTILITY DEFAULT_DATA_CENTER.capacity_mw
            (DEFAULT_DATA_CENTER.firm_load_factor.getD 0.80)
            (DEFAULT_DATA_CENTER.firm_peak_coincidence.getD 1.0) 0).allocation
          false 0 (some DEFAULT_UTILITY)).per_customer_monthly :=
  (phase_in_continuity DEFAULT_UTILITY DEFAULT_DATA_CENTER 2 (le_refl 2)).1

/-- Witness for C7 at the default utility, horizon 10, year 10. -/
theorem baseline_formula_witness :
    (calculate_baseline_trajectory DEFAULT_UTILITY 10).monthly_bills.getD 0 0 =
        DEFAULT_UTILITY.avg_monthly_bill ∧
      (calculate_baseline_trajectory DEFAULT_UTILITY 10).monthly_bills.getD 10 0 =
        DEFAULT_UTILITY.avg_monthly_bill *
          (1 + (general_inflation + annual_baseline_upgrade_pct + 0.005)) ^ 10 ∧
      baseline_increase_rate = 0.045 ∧
      (calculate_baseline_trajectory DEFAULT_UTILITY 10).monthly_bills.getD 10 0 =
        130 * (1.045 : ℚ) ^ 10 := by
  obtain ⟨a, b, c, d⟩ := baseline_formula DEFAULT_UTILITY 10 10 (le_refl 10)
  exact ⟨a, b (by norm_num), c, d⟩

/-- Witness for C8 at the default utility with a one-year horizon. -/
theorem baseline_strict_mono_witness :
    (calculate_baseline_trajectory DEFAULT_UTILITY 1).monthly_bills.getD 0 0 <
      (calculate_baseline_trajectory DEFAULT_UTILITY 1).monthly_bills.getD (0 + 1) 0 :=
  baseline_strict_mono DEFAULT_UTILITY 1 0 (by norm_num [DEFAULT_UTILITY]) (le_refl 1)
    (by norm_num)

/-- Witness for C9 on concrete one-element trajectories of equal length. -/
theorem summary_stats_total_witness :
    ∃ s, calculate_summary_stats (Trajectory.mk [2025] [100] "baseline")
        (Trajectory.mk [2025] [110] "unoptimized")
        (Trajectory.mk [2025] [105] "flexible")
        (Trajectory.mk [2025] [102] "dispatchable") DEFAULT_UTILITY = some s ∧
      (Trajectory.mk [2025] ([100] : List ℚ) "baseline").monthly_bills.getLast? =
        some s.baseline_final ∧
      (Trajectory.mk [2025] ([110] : List ℚ) "unoptimized").monthly_bills.getLast? =
        some s.unoptimized_final ∧
      (Trajectory.mk [2025] ([105] : List ℚ) "flexible").monthly_bills.getLast? =
        some s.flexible_final ∧
      (Trajectory.mk [2025] ([102] : List ℚ) "dispatchable").monthly_bills.getLast? =
        some s.dispatchable_final ∧
      s.current_monthly_bill = DEFAULT_UTILITY.avg_monthly_bill ∧
      s.diff_unoptimized = s.unoptimized_final - s.baseline_final ∧
      s.diff_flexible = s.flexible_final - s.baseline_final ∧
      s.diff_dispatchable = s.dispatchable_final - s.baseline_final ∧
      s.savings_flexible = s.unoptimized_final - s.flexible_final ∧
      s.savings_dispatchable = s.unoptimized_final - s.dispatchable_final ∧
      s.cum_baseline =
        ((Trajectory.mk [2025] ([100] : List ℚ) "baseline").monthly_bills.map
          (fun b => b * 12)).sum ∧
      s.cum_unoptimized =
        ((Trajectory.mk [2025] ([110] : List ℚ) "unoptimized").monthly_bills.map
          (fun b => b * 12)).sum ∧
      s.cum_flexible =
        ((Trajectory.mk [2025] ([105] : List ℚ) "flexible").monthly_bills.map
          (fun b => b * 12)).sum ∧
      s.cum_dispatchable =
        ((Trajectory.mk [2025] ([102] : List ℚ) "dispatchable").monthly_bills.map
          (fun b => b * 12)).sum :=
  summary_stats_total (Trajectory.mk [2025] [100] "baseline")
    (Trajectory.mk [2025] [110] "unoptimized")
    (Trajectory.mk [2025] [105] "flexible")
    (Trajectory.mk [2025] [102] "dispatchable") DEFAULT_UTILITY
    (by simp) rfl rfl rfl

end PowerInsight
